import Mathlib

/-!
Verification development for the zpp_throwing fallible-computation runtime
(src/zpp_throwing.h). The C++ header is shallowly embedded: the tri-state
promise slot, the hand-rolled runtime type information with `dyn_cast`, the
await propagation protocol and the ordered catch-clause dispatcher are
translated into executable Lean definitions, and the specified properties
are proved about them.
-/

namespace Zpp

/--
Identity of an `error_domain` instance. In the C++ code, domains are
compared by address (`m_error_domain` is a pointer); this type models the
set of distinct domain addresses: the two internal sentinel domains
`err_domain<throwing_error>` and `err_domain<throwing_exception>`
(zpp_throwing.h lines 267-286), the built-in `err_domain<std::errc>`
(line 1822), and arbitrary user-registered domains.
-/
inductive DomainRef : Type where
  | throwingError
  | throwingException
  | stdErrc
  | user (n : Nat)
deriving DecidableEq

/--
Model of the `zpp::error_domain` class contents (lines 30-76): the stored
success code. The virtual `name`/`message` members do not participate in
any claim about control flow; the `success` member is modelled below.
-/
structure error_domain : Type where
  m_success_code : Int

/--
`error_domain::success` (lines 52-55): returns true exactly when the code
equals the stored success code.
-/
def error_domain.success (d : error_domain) (code : Int) : Bool :=
  code = d.m_success_code

/--
Model of `zpp::error` (lines 150-249): a non-owning domain reference plus
an integral code.
-/
structure error : Type where
  domain : DomainRef
  code : Int
deriving DecidableEq

/--
`std::errc::not_enough_memory` has the value of ENOMEM, which is 12; this
is the code stored by `set_error(std::errc::not_enough_memory)`.
-/
def not_enough_memory : Int := 12

mutual
/--
Model of the static table built by `detail::type_information`
(lines 428-451): a type is identified by the address of its table, modelled
here by the `id` field, and carries its list of direct bases, in
declaration order, each with its erased derived-to-base pointer-adjustment
function (`detail::erased_static_cast`, lines 413-423).
-/
inductive TypeInfo : Type where
  | mk (id : Nat) (bases : BasesList)

/--
The base entries of a `type_information` table: each entry pairs the
pointer-adjustment function with the type information of that base, kept
in declaration order.
-/
inductive BasesList : Type where
  | nil
  | cons (adjust : Nat → Nat) (base : TypeInfo) (rest : BasesList)
end

/-- The identity (table address) of a `TypeInfo`. -/
def TypeInfo.id : TypeInfo → Nat
  | .mk i _ => i

mutual
/--
Model of `detail::dyn_cast` (lines 472-511). `base` is the target type
identity, `most_derived_pointer` the instance address, `most_derived` the
instance type information. On identity match the pointer is returned
unchanged; otherwise the direct bases are searched in declaration order.
-/
def dyn_cast (base : Nat) (most_derived_pointer : Nat) :
    TypeInfo → Option Nat
  | .mk id bases =>
    if id = base then some most_derived_pointer
    else dyn_cast_bases base most_derived_pointer bases

/--
The base loop of `detail::dyn_cast` (lines 494-507): for each direct base
in declaration order, adjust the pointer and recurse; the first non-null
result is returned, and null if the loop exhausts.
-/
def dyn_cast_bases (base : Nat) (most_derived_pointer : Nat) :
    BasesList → Option Nat
  | .nil => none
  | .cons adjust b rest =>
    match dyn_cast base (adjust most_derived_pointer) b with
    | some result => some result
    | none => dyn_cast_bases base most_derived_pointer rest
end

mutual
/--
Modelled from the spec: the list of adjusted pointers at every node of the
declared base graph whose identity equals the target, enumerated by the
depth-first, left-to-right search the spec describes in section 4.2. Used
only to state the refinement theorem about `dyn_cast`; `dyn_cast` itself is
translated from the code.
-/
def dfs_matches (base : Nat) (ptr : Nat) : TypeInfo → List Nat
  | .mk id bases =>
    (if id = base then [ptr] else []) ++ dfs_matches_bases base ptr bases

/--
Modelled from the spec: depth-first, left-to-right enumeration of matches
over a base list, companion of `dfs_matches`.
-/
def dfs_matches_bases (base : Nat) (ptr : Nat) : BasesList → List Nat
  | .nil => []
  | .cons adjust b rest =>
    dfs_matches base (adjust ptr) b ++ dfs_matches_bases base ptr rest
end

/--
Model of the `(type_id, address)` pair `struct dynamic_object`
(lines 299-303) returned by `exception_object::dynamic_object`. The
`type_id` pointer is modelled by the `TypeInfo` table it points to. This
also stands for the exception capsule itself in the promise slot model:
the only observable content of a capsule relevant to matching and
propagation is this pair.
-/
structure dynamic_object : Type where
  type_id : TypeInfo
  address : Nat

/--
Model of `zpp::promised_value` (lines 610-891). The C++ union of
`m_error_code` / `m_exception` / `m_value` is modelled by coexisting
fields; the active member is designated by `m_error_domain` exactly as in
the code (null means value, the `throwing_exception` sentinel domain means
exception, anything else means error). `m_exception` models the owning
`exception_ptr`, `none` standing for a null pointer.
-/
structure promised_value (T : Type) : Type where
  m_error_domain : Option DomainRef
  m_error_code : Int
  m_exception : Option dynamic_object
  m_value : Option T

/--
The default constructor (lines 613-616): the domain pointer is set to the
internal `throwing_error` sentinel domain; the union member
`m_error_code` is value-initialized to zero.
-/
def promised_value.new (T : Type) : promised_value T :=
  ⟨some DomainRef.throwingError, 0, none, none⟩

/--
`promised_value::has_exception` (lines 731-735): the domain pointer equals
the address of the `throwing_exception` sentinel domain.
-/
def promised_value.has_exception {T : Type} (pv : promised_value T) : Bool :=
  match pv.m_error_domain with
  | some DomainRef.throwingException => true
  | _ => false

/-- `promised_value::has_value` (lines 737-740): null domain pointer. -/
def promised_value.has_value {T : Type} (pv : promised_value T) : Bool :=
  pv.m_error_domain.isNone

/-- `promised_value::has_error` (lines 742-745). -/
def promised_value.has_error {T : Type} (pv : promised_value T) : Bool :=
  !pv.has_value && !pv.has_exception

/--
`promised_value::is_rethrow` (lines 747-750): exception state with a null
exception pointer.
-/
def promised_value.is_rethrow {T : Type} (pv : promised_value T) : Bool :=
  pv.has_exception && pv.m_exception.isNone

/--
`promised_value::get_error` (lines 780-783). The domain pointer is
dereferenced; the fallback value models the unreachable dereference of a
null pointer and is never produced on the defined paths.
-/
def promised_value.get_error {T : Type} (pv : promised_value T) : error :=
  ⟨pv.m_error_domain.getD DomainRef.throwingError, pv.m_error_code⟩

/-- `promised_value::set_value` (lines 788-800). -/
def promised_value.set_value {T : Type} (pv : promised_value T) (v : T) :
    promised_value T :=
  { pv with m_value := some v, m_error_domain := none }

/-- `promised_value::set_error` (lines 851-855). -/
def promised_value.set_error {T : Type} (pv : promised_value T)
    (e : error) : promised_value T :=
  { pv with m_error_domain := some e.domain, m_error_code := e.code }

/--
`promised_value::set_exception` (lines 812-833). The `noexceptAlloc` flag
models the compile-time condition that the allocator is non-void and its
`allocate` member is noexcept; in that case a null capsule (failed
allocation) degrades to `set_error(std::errc::not_enough_memory)`.
-/
def promised_value.set_exception {T : Type} (pv : promised_value T)
    (noexceptAlloc : Bool) (e : Option dynamic_object) : promised_value T :=
  let pv :=
    { pv with m_exception := e,
              m_error_domain := some DomainRef.throwingException }
  if noexceptAlloc then
    if pv.m_exception.isNone then
      pv.set_error ⟨DomainRef.stdErrc, not_enough_memory⟩
    else pv
  else pv

/-- `promised_value::rethrow` (lines 838-846): null capsule, exception domain. -/
def promised_value.rethrow {T : Type} (pv : promised_value T) :
    promised_value T :=
  { pv with m_exception := none,
            m_error_domain := some DomainRef.throwingException }

/--
`promised_value::propagate` (lines 861-875). The first component is the
destination after the transfer, the second is the source after it: moving
the owning exception pointer (`ExceptionType(std::move(other.m_exception))`)
nulls the pointer in the source, while in the error branch the source is
not written to.
-/
def promised_value.propagate {T U : Type} (pv : promised_value T)
    (other : promised_value U) :
    promised_value T × promised_value U :=
  if other.has_exception then
    ({ pv with m_exception := other.m_exception,
               m_error_domain := other.m_error_domain },
     { other with m_exception := none })
  else
    ({ pv with m_error_code := other.m_error_code,
               m_error_domain := other.m_error_domain },
     other)

/--
`make_exception_ptr` (lines 368-389), fallible-allocator branch: when the
allocation fails the returned exception pointer is null; otherwise it owns
the freshly constructed capsule. `allocOk` models whether
`allocator.allocate` returned non-null.
-/
def make_exception_ptr (allocOk : Bool) (cap : dynamic_object) :
    Option dynamic_object :=
  if allocOk then some cap else none

/--
`throwing::await_ready` (lines 1178-1187): the nested computation has
already been driven to completion by `m_handle.resume()` (modelled by
`inner` being its final promise slot); awaiting is ready exactly when the
slot holds a value.
-/
def await_ready {T : Type} (inner : promised_value T) : Bool :=
  inner.has_value

/--
`throwing::await_suspend` (lines 1192-1209): the nested failure is
propagated into the awaiting promise slot unless the nested slot is a
rethrow marker, and the awaiting body stays suspended, so the resulting
slot is the outcome of the awaiting computation.
-/
def await_suspend {T U : Type} (inner : promised_value T)
    (outer : promised_value U) : promised_value U :=
  if inner.is_rethrow then outer else (outer.propagate inner).1

/--
`throwing::await_resume` (lines 1214-1221): move the stored value out of
the nested slot.
-/
def await_resume {T : Type} (inner : promised_value T) : Option T :=
  inner.m_value

/--
The complete await step of the coroutine machinery over the embedding:
`inner` is the fully driven nested promise slot, `outer` the awaiting
promise slot before the await, and `k` the rest of the awaiting body (a
function from the awaited value to the final slot the body would produce).
When `await_ready` fails, the body never resumes and the outcome is the
slot produced by `await_suspend`; otherwise the body continues with the
value delivered by `await_resume`. The `none` fallback models the
unreachable read of an unset union member.
-/
def await_step {T U : Type} (inner : promised_value T)
    (outer : promised_value U) (k : T → promised_value U) :
    promised_value U :=
  if await_ready inner then
    match await_resume inner with
    | some v => k v
    | none => outer
  else await_suspend inner outer

/--
A catch clause of `result::catches`, classified the way the overload
machinery of `catch_exception_object` classifies it (lines 1392-1489):
a parameterless catch-all, a clause whose parameter accepts `zpp::error`,
or a clause declaring a concrete exception type, identified by the target
type identity. Handlers are throwing: each returns the promise slot of the
clause body, so a non-throwing clause is the special case of a handler
returning a value slot. A `catch_type` handler receives the base-adjusted
address that `dyn_cast` produced, which models the reference
`*catch_object` to the matched sub-object.
-/
inductive clause (T : Type) : Type where
  | catch_all (handler : Unit → promised_value T)
  | catch_error (handler : error → promised_value T)
  | catch_type (target : Nat) (handler : Nat → promised_value T)

/--
Lines 1477-1484 (and the identical blocks at 1400-1407 and 1435-1443):
consume the result slot of an invoked clause. A rethrow marker restores
the original failure by propagating the original slot `orig` into the
fresh dispatch promise; a failing clause propagates its own failure;
otherwise the value of the clause is returned.
-/
def handle_catch_result {T : Type} (orig catch_result : promised_value T) :
    promised_value T :=
  if catch_result.is_rethrow then
    ((promised_value.new T).propagate orig).1
  else if !catch_result.has_value then
    ((promised_value.new T).propagate catch_result).1
  else
    { promised_value.new T with m_error_domain := none,
                                m_value := catch_result.m_value }

/--
Model of the throwing overload of `result::catch_exception_object`
(lines 1392-1489). `orig` is the `m_value` member of the result being
dispatched, `exc` the `dynamic_object` of the active exception or null.
A catch-all clause is invoked unconditionally (the static assertion makes
it last); an error clause is skipped while an exception is active; a typed
clause matches through `dyn_cast`. Exhausting the clauses models the
`co_yield std::tie(rethrow, m_value)` of the last unmatched clause: the
original failure propagates into the dispatch promise.
-/
def catch_exception_object {T : Type} (orig : promised_value T)
    (exc : Option dynamic_object) : List (clause T) → promised_value T
  | [] => ((promised_value.new T).propagate orig).1
  | .catch_all h :: _ => handle_catch_result orig (h ())
  | .catch_error h :: rest =>
    match exc with
    | some _ => catch_exception_object orig exc rest
    | none => handle_catch_result orig (h orig.get_error)
  | .catch_type target h :: rest =>
    match
      (match exc with
       | some e => dyn_cast target e.address e.type_id
       | none => none) with
    | none => catch_exception_object orig exc rest
    | some catch_object => handle_catch_result orig (h catch_object)

/--
The throwing overload of `result::catches` (lines 1607-1634): when the
slot holds a value, return it unchanged without touching the clauses;
otherwise compute the `dynamic_object` of the active exception (null for
a domain error) and dispatch the clauses.
-/
def catches {T : Type} (res : promised_value T) (cs : List (clause T)) :
    promised_value T :=
  if res.has_value then
    { promised_value.new T with m_error_domain := none,
                                m_value := res.m_value }
  else
    catch_exception_object res
      (if res.has_exception then res.m_exception else none) cs

/--
Modelled from the spec: whether a clause structurally matches the active
failure, per section 4.5 step 3 of the spec. A catch-all always matches,
an error clause matches exactly when no exception is active, and a typed
clause matches when `dyn_cast` finds the target in the declared base graph
of the active exception. Used only to state the refinement theorems about
the dispatcher.
-/
def clause_matches {T : Type} (exc : Option dynamic_object) :
    clause T → Bool
  | .catch_all _ => true
  | .catch_error _ => exc.isNone
  | .catch_type target _ =>
    match exc with
    | some e => (dyn_cast target e.address e.type_id).isSome
    | none => false

/--
Modelled from the spec: the invocation of a matching clause with the
matched value, per section 4.5 step 4 of the spec. The fallback argument
of a typed clause is never produced when the clause matches.
-/
def invoke_clause {T : Type} (orig : promised_value T)
    (exc : Option dynamic_object) : clause T → promised_value T
  | .catch_all h => h ()
  | .catch_error h => h orig.get_error
  | .catch_type target h =>
    match
      (match exc with
       | some e => dyn_cast target e.address e.type_id
       | none => none) with
    | some catch_object => h catch_object
    | none => h 0

/--
Modelled from the spec: the dispatcher specification of section 4.5 of the
spec, stated with `List.find?`. The first structurally matching clause in
declaration order is invoked and its outcome consumed; when no clause
matches the original failure propagates unchanged.
-/
def catches_spec {T : Type} (orig : promised_value T)
    (exc : Option dynamic_object) (cs : List (clause T)) :
    promised_value T :=
  match cs.find? (clause_matches exc) with
  | none => ((promised_value.new T).propagate orig).1
  | some c => handle_catch_result orig (invoke_clause orig exc c)

/-! Concrete fixtures used by the witness theorems: a declared base chain
D to C to B to A mirroring the worked example of the spec, a diamond
with two declared paths to a shared base, and small promise slots. -/

/-- Fixture: exception type A with no declared bases, identity 0. -/
def chainA : TypeInfo := .mk 0 .nil

/-- Fixture: B declared with base A, adjusting the pointer by 10. -/
def chainB : TypeInfo := .mk 1 (.cons (fun p => p + 10) chainA .nil)

/-- Fixture: C declared with base B, adjusting the pointer by 5. -/
def chainC : TypeInfo := .mk 2 (.cons (fun p => p + 5) chainB .nil)

/-- Fixture: D declared with base C, adjusting the pointer by 1. -/
def chainD : TypeInfo := .mk 3 (.cons (fun p => p + 1) chainC .nil)

/-- Fixture: left branch of a diamond, with base `chainA`. -/
def diamondL : TypeInfo := .mk 11 (.cons (fun p => p + 10) chainA .nil)

/-- Fixture: right branch of a diamond, with the same base `chainA`. -/
def diamondR : TypeInfo := .mk 12 (.cons (fun p => p + 20) chainA .nil)

/-- Fixture: the diamond top, declaring both branches as direct bases. -/
def diamondD : TypeInfo :=
  .mk 13 (.cons (fun p => p + 1) diamondL (.cons (fun p => p + 2) diamondR .nil))

/-- Fixture: a slot holding a domain error of a user domain. -/
def origW : promised_value Int := ⟨some (DomainRef.user 5), 3, none, none⟩

/-- Fixture: a typed clause whose target matches nothing in the fixtures. -/
def clauseNoMatch : clause Int :=
  .catch_type 9 (fun p => (promised_value.new Int).set_value (Int.ofNat p))

/-- Fixture: an error clause whose body performs the rethrow operation. -/
def clauseRethrow : clause Int :=
  .catch_error (fun _ => (promised_value.new Int).rethrow)

/-- Fixture: the clause list of the dispatch witness. -/
def clausesW : List (clause Int) := [clauseNoMatch, clauseRethrow]

/-- Fixture: a nested slot that failed with a user domain error. -/
def innerErrW : promised_value Int := ⟨some (DomainRef.user 7), 4, none, none⟩

/-- Fixture: a nested slot that completed with the value 9. -/
def innerValW : promised_value Int := ⟨none, 0, none, some 9⟩

/-- Fixture: a continuation standing for the rest of an awaiting body. -/
def contW : Int → promised_value Int :=
  fun v => (promised_value.new Int).set_value (v + 1)

/-- Fixture: a slot holding the value 7. -/
def resValW : promised_value Int := ⟨none, 0, none, some 7⟩

/-- Fixture: an exception capsule of type `chainA` at address 42. -/
def capW : dynamic_object := ⟨chainA, 42⟩

/-- Fixture: a source slot owning the capsule `capW`. -/
def srcExcW : promised_value Int :=
  ⟨some DomainRef.throwingException, 0, some capW, none⟩

/-- Fixture: a source slot holding a `std::errc` error with code 5. -/
def srcErrW : promised_value Int := ⟨some DomainRef.stdErrc, 5, none, none⟩

/-! Helper lemmas, shared by the claim theorems. -/

mutual
/--
Helper: `dyn_cast` returns the head of the depth-first, left-to-right
enumeration of matches.
-/
theorem dyn_cast_eq_dfs_head (base ptr : Nat) :
    (t : TypeInfo) → dyn_cast base ptr t = (dfs_matches base ptr t).head?
  | .mk i bases => by
    unfold dyn_cast dfs_matches
    by_cases h : i = base
    · simp [h]
    · simp only [if_neg h, List.nil_append]
      exact dyn_cast_bases_eq_dfs_head base ptr bases

/--
Helper: the base loop of `dyn_cast` returns the head of the depth-first,
left-to-right enumeration of matches over the base list.
-/
theorem dyn_cast_bases_eq_dfs_head (base ptr : Nat) :
    (bs : BasesList) →
      dyn_cast_bases base ptr bs = (dfs_matches_bases base ptr bs).head?
  | .nil => by simp [dyn_cast_bases, dfs_matches_bases]
  | .cons adjust b rest => by
    unfold dyn_cast_bases dfs_matches_bases
    rw [dyn_cast_eq_dfs_head base (adjust ptr) b,
        dyn_cast_bases_eq_dfs_head base ptr rest]
    cases dfs_matches base (adjust ptr) b with
    | nil => simp
    | cons x xs => simp
end

/--
Helper: the recursive clause walk of `catch_exception_object` agrees with
the first-match dispatcher specification `catches_spec`.
-/
theorem catch_exception_object_eq_spec {T : Type} (orig : promised_value T)
    (exc : Option dynamic_object) (cs : List (clause T)) :
    catch_exception_object orig exc cs = catches_spec orig exc cs := by
  induction cs with
  | nil => rfl
  | cons c rest ih =>
    cases c with
    | catch_all h =>
      rw [catches_spec, List.find?_cons_of_pos _ (by rfl)]
      rfl
    | catch_error h =>
      cases exc with
      | none =>
        rw [catches_spec, List.find?_cons_of_pos _ (by rfl)]
        rfl
      | some e =>
        show catch_exception_object orig (some e) rest = _
        rw [ih, catches_spec, catches_spec,
            List.find?_cons_of_neg _ (by simp [clause_matches])]
    | catch_type target h =>
      cases exc with
      | none =>
        show catch_exception_object orig none rest = _
        rw [ih, catches_spec, catches_spec,
            List.find?_cons_of_neg _ (by simp [clause_matches])]
      | some e =>
        cases hdc : dyn_cast target e.address e.type_id with
        | none =>
          have hl : catch_exception_object orig (some e)
              (.catch_type target h :: rest) =
                match dyn_cast target e.address e.type_id with
                | none => catch_exception_object orig (some e) rest
                | some catch_object =>
                    handle_catch_result orig (h catch_object) := rfl
          rw [hl, hdc, ih, catches_spec, catches_spec,
              List.find?_cons_of_neg _ (by simp [clause_matches, hdc])]
        | some p =>
          have hl : catch_exception_object orig (some e)
              (.catch_type target h :: rest) =
                match dyn_cast target e.address e.type_id with
                | none => catch_exception_object orig (some e) rest
                | some catch_object =>
                    handle_catch_result orig (h catch_object) := rfl
          rw [hl, hdc, catches_spec,
              List.find?_cons_of_pos _ (by simp [clause_matches, hdc])]
          simp [invoke_clause, hdc]

/--
Helper: the three state predicates of a promise slot are functions of the
stored error-domain pointer alone.
-/
theorem state_depends_on_domain {T U : Type} (pv : promised_value T)
    (qv : promised_value U) (h : pv.m_error_domain = qv.m_error_domain) :
    pv.has_value = qv.has_value ∧ pv.has_exception = qv.has_exception
    ∧ pv.has_error = qv.has_error := by
  simp [promised_value.has_value, promised_value.has_exception,
    promised_value.has_error, h]

/--
Helper: an exception-state slot stores the address of the
`throwing_exception` sentinel domain.
-/
theorem has_exception_domain {T : Type} (pv : promised_value T)
    (h : pv.has_exception = true) :
    pv.m_error_domain = some DomainRef.throwingException := by
  unfold promised_value.has_exception at h
  rcases hd : pv.m_error_domain with _ | d
  · rw [hd] at h; simp at h
  · rw [hd] at h
    cases d <;> simp_all

/-- Helper: a value-state slot is never a rethrow marker. -/
theorem is_rethrow_false_of_has_value {T : Type} (pv : promised_value T)
    (h : pv.has_value = true) : pv.is_rethrow = false := by
  unfold promised_value.is_rethrow promised_value.has_exception
  unfold promised_value.has_value at h
  rcases hd : pv.m_error_domain with _ | d
  · simp
  · rw [hd] at h; simp at h

/--
C2: `dyn_cast` returns the instance pointer unchanged on an identity
match, and in general returns the first non-null result of the
depth-first, left-to-right search over the declared base graph, applying
the pointer-adjustment function of each base, with null when no base path
reaches the target type.
-/
theorem spec_c2 (base ptr : Nat) (t : TypeInfo) :
    dyn_cast base ptr t = (dfs_matches base ptr t).head?
    ∧ (t.id = base → dyn_cast base ptr t = some ptr) := by
  refine ⟨dyn_cast_eq_dfs_head base ptr t, fun h => ?_⟩
  cases t with
  | mk i bases =>
    have hi : i = base := h
    unfold dyn_cast
    simp [hi]

/--
Witness for C2: on the declared chain D to C to B to A, `dyn_cast`
returns the instance pointer unchanged on the identity match, and the
multi-step search for B agrees with the depth-first enumeration of
matches.
-/
theorem spec_c2_witness :
    dyn_cast 3 10 chainD = some 10
    ∧ dyn_cast 1 10 chainD = (dfs_matches 1 10 chainD).head? :=
  ⟨(spec_c2 3 10 chainD).2 rfl, (spec_c2 1 10 chainD).1⟩

/--
C8: with a diamond-shaped declared base graph, in which the target type is
reachable through two distinct declared base paths, `dyn_cast` returns the
result of the first declared path in left-to-right order; the success of
the second path is ignored and no ambiguity is detected or reported.
-/
theorem spec_c8 (target i : Nat) (f g : Nat → Nat) (b c : TypeInfo)
    (rest : BasesList) (ptr p q : Nat) (hne : i ≠ target)
    (hfirst : dyn_cast target (f ptr) b = some p)
    (_hsecond : dyn_cast target (g ptr) c = some q) :
    dyn_cast target ptr (.mk i (.cons f b (.cons g c rest))) = some p := by
  unfold dyn_cast
  rw [if_neg hne]
  unfold dyn_cast_bases
  rw [hfirst]

/--
Witness for C8: on the concrete diamond fixture both declared paths reach
the shared base (addresses 111 and 122); the dispatch through `dyn_cast`
silently returns the first one.
-/
theorem spec_c8_witness : dyn_cast 0 100 diamondD = some 111 :=
  spec_c8 0 13 (fun p => p + 1) (fun p => p + 2) diamondL diamondR .nil
    100 111 122 (by decide) rfl rfl

/--
C9: the success predicate of an error domain is a pure function of the
code, true exactly when the code equals the designated success code of the
domain, and therefore false for every other code.
-/
theorem spec_c9 (d : error_domain) (code : Int) :
    (d.success code = true ↔ code = d.m_success_code)
    ∧ (code ≠ d.m_success_code → d.success code = false) := by
  unfold error_domain.success
  constructor
  · exact decide_eq_true_iff
  · intro h
    exact decide_eq_false h

/--
Witness for C9: in a domain whose success code is 0, the code 1 is not a
success.
-/
theorem spec_c9_witness : error_domain.success ⟨0⟩ 1 = false :=
  (spec_c9 ⟨0⟩ 1).2 (by decide)

/--
C10: a freshly default-constructed promise slot reports no value and no
exception but an error, stored as the internal `throwing_error` sentinel
domain, so the not-yet-set state is observationally a domain error; and
for every slot exactly one of the three state predicates holds, each
determined solely by the stored error-domain pointer.
-/
theorem spec_c10 (T : Type) :
    (promised_value.new T).has_value = false
    ∧ (promised_value.new T).has_exception = false
    ∧ (promised_value.new T).has_error = true
    ∧ (promised_value.new T).m_error_domain = some DomainRef.throwingError
    ∧ (∀ pv : promised_value T,
        (pv.has_value = true ∧ pv.has_exception = false
          ∧ pv.has_error = false)
        ∨ (pv.has_value = false ∧ pv.has_exception = true
          ∧ pv.has_error = false)
        ∨ (pv.has_value = false ∧ pv.has_exception = false
          ∧ pv.has_error = true))
    ∧ (∀ (pv qv : promised_value T),
        pv.m_error_domain = qv.m_error_domain →
          pv.has_value = qv.has_value
          ∧ pv.has_exception = qv.has_exception
          ∧ pv.has_error = qv.has_error) := by
  refine ⟨rfl, rfl, rfl, rfl, fun pv => ?_, fun pv qv h =>
    state_depends_on_domain pv qv h⟩
  unfold promised_value.has_value promised_value.has_exception
    promised_value.has_error
  rcases hd : pv.m_error_domain with _ | d
  · simp [promised_value.has_value, promised_value.has_exception, hd]
  · cases d <;>
      simp [promised_value.has_value, promised_value.has_exception, hd]

/--
Witness for C10: the default slot of the integer instantiation is in the
error state, and two slots with the same domain pointer agree on all three
state predicates.
-/
theorem spec_c10_witness :
    (promised_value.new Int).has_error = true
    ∧ (promised_value.new Int).has_error =
        (promised_value.mk (some DomainRef.throwingError) 99 none none :
          promised_value Int).has_error :=
  ⟨(spec_c10 Int).2.2.1,
    ((spec_c10 Int).2.2.2.2.2 (promised_value.new Int)
      (promised_value.mk (some DomainRef.throwingError) 99 none none)
      rfl).2.2⟩

/--
C1: awaiting a fully driven nested computation. When the nested slot
holds a value, the awaiting body continues with that value; when it holds
a domain error or an exception capsule, the rest of the body never runs
(the outcome is the same for every continuation) and the outcome of the
awaiting computation is the propagated failure: the same error domain and
code, or the same exception capsule.
-/
theorem spec_c1 {T U : Type} (inner : promised_value T)
    (outer : promised_value U) (k : T → promised_value U) :
    (∀ v, inner.has_value = true → inner.m_value = some v →
        await_step inner outer k = k v)
    ∧ (inner.has_error = true →
        (∀ k2, await_step inner outer k2 = (outer.propagate inner).1)
        ∧ (await_step inner outer k).m_error_domain = inner.m_error_domain
        ∧ (await_step inner outer k).m_error_code = inner.m_error_code
        ∧ (await_step inner outer k).has_error = true)
    ∧ (∀ cap, inner.has_exception = true → inner.m_exception = some cap →
        (∀ k2, await_step inner outer k2 = (outer.propagate inner).1)
        ∧ (await_step inner outer k).m_error_domain =
            some DomainRef.throwingException
        ∧ (await_step inner outer k).m_exception = some cap
        ∧ (await_step inner outer k).has_exception = true) := by
  refine ⟨fun v hv hval => ?_, fun herr => ?_, fun cap hexc hcap => ?_⟩
  · unfold await_step await_ready await_resume
    rw [hv, hval]
    rfl
  · have hv : inner.has_value = false := by
      unfold promised_value.has_error at herr
      cases hb : inner.has_value
      · rfl
      · rw [hb] at herr; simp at herr
    have he : inner.has_exception = false := by
      unfold promised_value.has_error at herr
      cases hb : inner.has_exception
      · rfl
      · rw [hb] at herr; simp at herr
    have hre : inner.is_rethrow = false := by
      unfold promised_value.is_rethrow
      rw [he]
      rfl
    have hstep : ∀ k2 : T → promised_value U,
        await_step inner outer k2 = (outer.propagate inner).1 := by
      intro k2
      unfold await_step await_ready await_suspend
      rw [hv, hre]
      rfl
    have hprop : (outer.propagate inner).1 =
        { outer with m_error_code := inner.m_error_code,
                     m_error_domain := inner.m_error_domain } := by
      unfold promised_value.propagate
      rw [he]
      rfl
    refine ⟨hstep, ?_, ?_, ?_⟩
    · rw [hstep k, hprop]
    · rw [hstep k, hprop]
    · rw [hstep k, hprop]
      exact (state_depends_on_domain _ inner rfl).2.2.trans herr
  · have hv : inner.has_value = false := by
      unfold promised_value.has_exception at hexc
      unfold promised_value.has_value
      rcases hd : inner.m_error_domain with _ | d
      · rw [hd] at hexc; simp at hexc
      · simp
    have hre : inner.is_rethrow = false := by
      unfold promised_value.is_rethrow
      rw [hexc, hcap]
      rfl
    have hstep : ∀ k2 : T → promised_value U,
        await_step inner outer k2 = (outer.propagate inner).1 := by
      intro k2
      unfold await_step await_ready await_suspend
      rw [hv, hre]
      rfl
    have hprop : (outer.propagate inner).1 =
        { outer with m_exception := inner.m_exception,
                     m_error_domain := inner.m_error_domain } := by
      unfold promised_value.propagate
      rw [hexc]
      rfl
    have hdom := has_exception_domain inner hexc
    refine ⟨hstep, ?_, ?_, ?_⟩
    · rw [hstep k, hprop]
      exact hdom
    · rw [hstep k, hprop]
      exact hcap
    · rw [hstep k, hprop]
      exact ((state_depends_on_domain _ inner rfl).2.1).trans hexc

/--
Witness for C1: awaiting the failed fixture slot yields the propagated
failure for the concrete continuation, and awaiting the value fixture
continues the body with the stored value 9.
-/
theorem spec_c1_witness :
    await_step innerErrW (promised_value.new Int) contW =
      ((promised_value.new Int).propagate innerErrW).1
    ∧ await_step innerValW (promised_value.new Int) contW = contW 9 :=
  ⟨((spec_c1 innerErrW (promised_value.new Int) contW).2.1 rfl).1 contW,
    (spec_c1 innerValW (promised_value.new Int) contW).1 9 rfl rfl⟩

/--
C3: the clause walk of `catch_exception_object` tries the clauses strictly
in declaration order and invokes exactly the first structurally matching
clause, as the `List.find?` dispatcher specification states: since the
result agrees with that specification for arbitrary clause handlers,
clauses after the first match never influence the dispatch.
-/
theorem spec_c3 {T : Type} (orig : promised_value T)
    (exc : Option dynamic_object) (cs : List (clause T)) :
    catch_exception_object orig exc cs = catches_spec orig exc cs :=
  catch_exception_object_eq_spec orig exc cs

/--
C4: when some clause matches, the outcome of the dispatch is the outcome
of the invoked clause: a rethrow restores the original failure with
identical domain pointer and code or identical exception capsule, a
failing clause replaces the outcome with its own failure, and otherwise
the value of the clause is the result.
-/
theorem spec_c4 {T : Type} (orig : promised_value T)
    (exc : Option dynamic_object) (cs : List (clause T)) (c : clause T)
    (hfind : cs.find? (clause_matches exc) = some c) :
    ((invoke_clause orig exc c).is_rethrow = true →
        catch_exception_object orig exc cs =
          ((promised_value.new T).propagate orig).1
        ∧ (catch_exception_object orig exc cs).m_error_domain =
            orig.m_error_domain
        ∧ (orig.has_exception = true →
            (catch_exception_object orig exc cs).m_exception =
              orig.m_exception)
        ∧ (orig.has_exception = false →
            (catch_exception_object orig exc cs).m_error_code =
              orig.m_error_code))
    ∧ ((invoke_clause orig exc c).is_rethrow = false →
        (invoke_clause orig exc c).has_value = false →
        catch_exception_object orig exc cs =
          ((promised_value.new T).propagate (invoke_clause orig exc c)).1)
    ∧ ((invoke_clause orig exc c).has_value = true →
        (catch_exception_object orig exc cs).m_value =
          (invoke_clause orig exc c).m_value
        ∧ (catch_exception_object orig exc cs).has_value = true) := by
  have hdisp : catch_exception_object orig exc cs =
      handle_catch_result orig (invoke_clause orig exc c) := by
    rw [catch_exception_object_eq_spec, catches_spec, hfind]
  refine ⟨fun hre => ?_, fun hre hnv => ?_, fun hv => ?_⟩
  · have hres : catch_exception_object orig exc cs =
        ((promised_value.new T).propagate orig).1 := by
      rw [hdisp]
      unfold handle_catch_result
      rw [hre]
      rfl
    refine ⟨hres, ?_, fun hexc => ?_, fun herr => ?_⟩
    · rw [hres]
      unfold promised_value.propagate
      cases hb : orig.has_exception <;> rfl
    · rw [hres]
      unfold promised_value.propagate
      rw [hexc]
      rfl
    · rw [hres]
      unfold promised_value.propagate
      rw [herr]
      rfl
  · rw [hdisp]
    unfold handle_catch_result
    rw [hre, hnv]
    rfl
  · have hre := is_rethrow_false_of_has_value _ hv
    rw [hdisp]
    unfold handle_catch_result
    rw [hre, hv]
    exact ⟨rfl, rfl⟩

/--
Witness for C4: dispatching the fixture error past a non-matching typed
clause into the rethrowing error clause restores the original user-domain
failure with its code.
-/
theorem spec_c4_witness :
    (catch_exception_object origW none clausesW).m_error_domain =
      some (DomainRef.user 5)
    ∧ (catch_exception_object origW none clausesW).m_error_code = 3 :=
  ⟨((spec_c4 origW none clausesW clauseRethrow rfl).1 rfl).2.1,
    ((spec_c4 origW none clausesW clauseRethrow rfl).1 rfl).2.2.2 rfl⟩

/--
C5: when the dispatched result holds a value, `catches` returns that value
unchanged and the clauses never influence the outcome, regardless of how
many clauses are supplied.
-/
theorem spec_c5 {T : Type} (res : promised_value T) (v : T)
    (h1 : res.has_value = true) (h2 : res.m_value = some v)
    (cs : List (clause T)) :
    catches res cs =
      { promised_value.new T with m_error_domain := none,
                                  m_value := some v }
    ∧ (catches res cs).m_value = some v
    ∧ (catches res cs).has_value = true := by
  have hres : catches res cs =
      { promised_value.new T with m_error_domain := none,
                                  m_value := some v } := by
    unfold catches
    rw [h1, h2]
    rfl
  exact ⟨hres, by rw [hres], by rw [hres]; rfl⟩

/--
Witness for C5: the fixture value slot passes through `catches` unchanged
even with a rethrowing clause supplied.
-/
theorem spec_c5_witness :
    catches resValW [clauseRethrow] =
      (⟨none, 0, none, some 7⟩ : promised_value Int)
    ∧ (catches resValW [clauseRethrow]).has_value = true :=
  ⟨(spec_c5 resValW 7 rfl rfl [clauseRethrow]).1,
    (spec_c5 resValW 7 rfl rfl [clauseRethrow]).2.2⟩

/--
C6: raising an exception under a fallible noexcept allocator whose
allocation fails stores a null capsule, which `set_exception` degrades to
the domain error `not_enough_memory`: afterwards the slot reports an
error, not an exception and not a value and not a rethrow marker, with
that error code, leaving exactly one active state.
-/
theorem spec_c6 {T : Type} (pv : promised_value T) (cap : dynamic_object) :
    (pv.set_exception true (make_exception_ptr false cap)).has_error = true
    ∧ (pv.set_exception true (make_exception_ptr false cap)).has_exception
        = false
    ∧ (pv.set_exception true (make_exception_ptr false cap)).has_value
        = false
    ∧ (pv.set_exception true (make_exception_ptr false cap)).is_rethrow
        = false
    ∧ (pv.set_exception true (make_exception_ptr false cap)).get_error =
        ⟨DomainRef.stdErrc, not_enough_memory⟩ := by
  have hres : pv.set_exception true (make_exception_ptr false cap) =
      { pv with m_exception := none,
                m_error_domain := some DomainRef.stdErrc,
                m_error_code := not_enough_memory } := by
    unfold promised_value.set_exception make_exception_ptr
      promised_value.set_error
    rfl
  rw [hres]
  exact ⟨rfl, rfl, rfl, rfl, rfl⟩

/--
C7: `propagate` transfers a failure from a source slot into a destination
slot: a domain error is transferred with the identical domain pointer and
code, and an exception capsule is transferred with its ownership moved, so
that the destination owns exactly the original capsule and the source
exception pointer is nulled.
-/
theorem spec_c7 {T U : Type} (dst : promised_value T)
    (src : promised_value U) :
    (src.has_error = true →
        (dst.propagate src).1.m_error_domain = src.m_error_domain
        ∧ (dst.propagate src).1.m_error_code = src.m_error_code
        ∧ (dst.propagate src).1.has_error = true
        ∧ (dst.propagate src).2 = src)
    ∧ (∀ cap, src.has_exception = true → src.m_exception = some cap →
        (dst.propagate src).1.m_exception = some cap
        ∧ (dst.propagate src).1.m_error_domain =
            some DomainRef.throwingException
        ∧ (dst.propagate src).1.has_exception = true
        ∧ (dst.propagate src).2.m_exception = none) := by
  refine ⟨fun herr => ?_, fun cap hexc hcap => ?_⟩
  · have he : src.has_exception = false := by
      unfold promised_value.has_error at herr
      cases hb : src.has_exception
      · rfl
      · rw [hb] at herr; simp at herr
    have hprop : dst.propagate src =
        ({ dst with m_error_code := src.m_error_code,
                    m_error_domain := src.m_error_domain }, src) := by
      unfold promised_value.propagate
      rw [he]
      rfl
    rw [hprop]
    refine ⟨rfl, rfl, ?_, rfl⟩
    exact ((state_depends_on_domain _ src rfl).2.2).trans herr
  · have hdom := has_exception_domain src hexc
    have hprop : dst.propagate src =
        ({ dst with m_exception := src.m_exception,
                    m_error_domain := src.m_error_domain },
         { src with m_exception := none }) := by
      unfold promised_value.propagate
      rw [hexc]
      rfl
    rw [hprop]
    refine ⟨hcap, hdom, ?_, rfl⟩
    exact ((state_depends_on_domain _ src rfl).2.1).trans hexc

/--
Witness for C7: propagating the fixture error slot copies the domain and
the code 5, and propagating the fixture exception slot moves the capsule
into the destination and nulls the source exception pointer.
-/
theorem spec_c7_witness :
    ((promised_value.new Int).propagate srcErrW).1.m_error_code = 5
    ∧ ((promised_value.new Int).propagate srcExcW).1.m_exception = some capW
    ∧ ((promised_value.new Int).propagate srcExcW).2.m_exception = none :=
  ⟨((spec_c7 (promised_value.new Int) srcErrW).1 rfl).2.1,
    ((spec_c7 (promised_value.new Int) srcExcW).2 capW rfl rfl).1,
    ((spec_c7 (promised_value.new Int) srcExcW).2 capW rfl rfl).2.2.2⟩

end Zpp
